import Mathlib

/-!
# Verification of the GDScript bytecode fast-path extractor and resumable state

This development shallowly embeds the two responsibilities of
`gdscript_function.cpp`:

* `GDScriptFunction::prepare_native_jit`: the decoder (`opcode_size_at`,
  `is_supported`), the per-opcode native-step builders, the segment scan, the
  minimum-length filter and the segment index build; and
* `GDScriptFunctionState`: `is_valid`, `resume` and `_clear_stack`.

Modelling conventions:

* Machine `int` words become `Int`; the instruction stream `_code_ptr` with
  its length `_code_size` becomes a `List Int` (`_code_size` is the list
  length).  An out-of-bounds read of the stream (undefined behaviour in the
  C++) is modelled as reading `0`; no theorem below depends on the value an
  out-of-bounds read yields.
* The numeric values of the `OPCODE_*` enumeration and of `Variant::Type`
  live in headers that are not part of the source under scrutiny.  The code
  only ever compares these values for equality, so any injective assignment
  is behaviourally equivalent; we fix one explicitly below.
* Opaque function-pointer table entries (`_operator_funcs_ptr[i]`, setter and
  getter tables, `_builtin_methods_ptr[i]`) are modelled by the index `i`
  that selects them, since the decoder never inspects the pointee.  The two
  `reinterpret_cast` call forms store the raw code word itself, exactly as
  the C++ stores the word reinterpreted as a pointer.
* The C++ loops become fuel-indexed structural recursions.  The fuel actually
  supplied (`_code_size + 1`) is proved sufficient (`outer_scan_stable`), so
  the fuel is an encoding of the loop, not a semantic change.
-/

namespace GDScript2

/-! ## Opcode constants

The opcode enumeration is declared in `gdscript_function.h`, which is not part
of the analysed source; `gdscript_function.cpp` only compares opcode words for
equality, so the particular injective assignment below is immaterial.  Every
integer outside the list (for example `0`) is an opcode the fast path does not
support. -/

@[simp] def OPCODE_OPERATOR_VALIDATED : Int := 1
@[simp] def OPCODE_SET_NAMED_VALIDATED : Int := 2
@[simp] def OPCODE_GET_NAMED_VALIDATED : Int := 3
@[simp] def OPCODE_SET_KEYED_VALIDATED : Int := 4
@[simp] def OPCODE_GET_KEYED_VALIDATED : Int := 5
@[simp] def OPCODE_SET_INDEXED_VALIDATED : Int := 6
@[simp] def OPCODE_GET_INDEXED_VALIDATED : Int := 7
@[simp] def OPCODE_CALL_BUILTIN_TYPE_VALIDATED : Int := 8
@[simp] def OPCODE_CALL_UTILITY_VALIDATED : Int := 9
@[simp] def OPCODE_CALL_GDSCRIPT_UTILITY : Int := 10
@[simp] def OPCODE_TYPE_ADJUST_BOOL : Int := 11
@[simp] def OPCODE_TYPE_ADJUST_INT : Int := 12
@[simp] def OPCODE_TYPE_ADJUST_FLOAT : Int := 13
@[simp] def OPCODE_TYPE_ADJUST_STRING : Int := 14
@[simp] def OPCODE_TYPE_ADJUST_VECTOR2 : Int := 15
@[simp] def OPCODE_TYPE_ADJUST_VECTOR2I : Int := 16
@[simp] def OPCODE_TYPE_ADJUST_RECT2 : Int := 17
@[simp] def OPCODE_TYPE_ADJUST_RECT2I : Int := 18
@[simp] def OPCODE_TYPE_ADJUST_VECTOR3 : Int := 19
@[simp] def OPCODE_TYPE_ADJUST_VECTOR3I : Int := 20
@[simp] def OPCODE_TYPE_ADJUST_TRANSFORM2D : Int := 21
@[simp] def OPCODE_TYPE_ADJUST_VECTOR4 : Int := 22
@[simp] def OPCODE_TYPE_ADJUST_VECTOR4I : Int := 23
@[simp] def OPCODE_TYPE_ADJUST_PLANE : Int := 24
@[simp] def OPCODE_TYPE_ADJUST_QUATERNION : Int := 25
@[simp] def OPCODE_TYPE_ADJUST_AABB : Int := 26
@[simp] def OPCODE_TYPE_ADJUST_BASIS : Int := 27
@[simp] def OPCODE_TYPE_ADJUST_TRANSFORM3D : Int := 28
@[simp] def OPCODE_TYPE_ADJUST_PROJECTION : Int := 29
@[simp] def OPCODE_TYPE_ADJUST_COLOR : Int := 30
@[simp] def OPCODE_TYPE_ADJUST_STRING_NAME : Int := 31
@[simp] def OPCODE_TYPE_ADJUST_NODE_PATH : Int := 32
@[simp] def OPCODE_TYPE_ADJUST_RID : Int := 33
@[simp] def OPCODE_TYPE_ADJUST_OBJECT : Int := 34
@[simp] def OPCODE_TYPE_ADJUST_CALLABLE : Int := 35
@[simp] def OPCODE_TYPE_ADJUST_SIGNAL : Int := 36
@[simp] def OPCODE_TYPE_ADJUST_DICTIONARY : Int := 37
@[simp] def OPCODE_TYPE_ADJUST_ARRAY : Int := 38
@[simp] def OPCODE_TYPE_ADJUST_PACKED_BYTE_ARRAY : Int := 39
@[simp] def OPCODE_TYPE_ADJUST_PACKED_INT32_ARRAY : Int := 40
@[simp] def OPCODE_TYPE_ADJUST_PACKED_INT64_ARRAY : Int := 41
@[simp] def OPCODE_TYPE_ADJUST_PACKED_FLOAT32_ARRAY : Int := 42
@[simp] def OPCODE_TYPE_ADJUST_PACKED_FLOAT64_ARRAY : Int := 43
@[simp] def OPCODE_TYPE_ADJUST_PACKED_STRING_ARRAY : Int := 44
@[simp] def OPCODE_TYPE_ADJUST_PACKED_VECTOR2_ARRAY : Int := 45
@[simp] def OPCODE_TYPE_ADJUST_PACKED_VECTOR3_ARRAY : Int := 46
@[simp] def OPCODE_TYPE_ADJUST_PACKED_COLOR_ARRAY : Int := 47
@[simp] def OPCODE_TYPE_ADJUST_PACKED_VECTOR4_ARRAY : Int := 48

/-! ## Variant type tags

`Variant::Type` values, used only as the `target_type` tag of a type-adjust
step; `NIL` is the sentinel the scanner uses for an unrecognised coercion
opcode.  Values follow the engine's declaration order. -/

namespace VariantType

@[simp] def NIL : Int := 0
@[simp] def BOOL : Int := 1
@[simp] def INT : Int := 2
@[simp] def FLOAT : Int := 3
@[simp] def STRING : Int := 4
@[simp] def VECTOR2 : Int := 5
@[simp] def VECTOR2I : Int := 6
@[simp] def RECT2 : Int := 7
@[simp] def RECT2I : Int := 8
@[simp] def VECTOR3 : Int := 9
@[simp] def VECTOR3I : Int := 10
@[simp] def TRANSFORM2D : Int := 11
@[simp] def VECTOR4 : Int := 12
@[simp] def VECTOR4I : Int := 13
@[simp] def PLANE : Int := 14
@[simp] def QUATERNION : Int := 15
@[simp] def AABB : Int := 16
@[simp] def BASIS : Int := 17
@[simp] def TRANSFORM3D : Int := 18
@[simp] def PROJECTION : Int := 19
@[simp] def COLOR : Int := 20
@[simp] def STRING_NAME : Int := 21
@[simp] def NODE_PATH : Int := 22
@[simp] def RID : Int := 23
@[simp] def OBJECT : Int := 24
@[simp] def CALLABLE : Int := 25
@[simp] def SIGNAL : Int := 26
@[simp] def DICTIONARY : Int := 27
@[simp] def ARRAY : Int := 28
@[simp] def PACKED_BYTE_ARRAY : Int := 29
@[simp] def PACKED_INT32_ARRAY : Int := 30
@[simp] def PACKED_INT64_ARRAY : Int := 31
@[simp] def PACKED_FLOAT32_ARRAY : Int := 32
@[simp] def PACKED_FLOAT64_ARRAY : Int := 33
@[simp] def PACKED_STRING_ARRAY : Int := 34
@[simp] def PACKED_VECTOR2_ARRAY : Int := 35
@[simp] def PACKED_VECTOR3_ARRAY : Int := 36
@[simp] def PACKED_COLOR_ARRAY : Int := 37
@[simp] def PACKED_VECTOR4_ARRAY : Int := 38

end VariantType

/-! ## The function record and the instruction stream -/

/-- The fields of `GDScriptFunction` that `prepare_native_jit` reads.  The
bound function-pointer tables are represented by their lengths (the `_count`
fields the C++ checks against); `native_operator_hints` is the list of
`(ip, unary)` hints. -/
structure GDScriptFunction where
  code : List Int
  has_code_ptr : Bool
  operator_funcs_count : Int
  setters_count : Int
  getters_count : Int
  keyed_setters_count : Int
  keyed_getters_count : Int
  indexed_setters_count : Int
  indexed_getters_count : Int
  builtin_methods_count : Int
  native_operator_hints : List (Int × Bool)
deriving DecidableEq

/-- The `_code_size` field: the length of the instruction stream. -/
def _code_size (f : GDScriptFunction) : Int := (f.code.length : Int)

/-- Read a word of the instruction stream, `_code_ptr[i]`.  Out-of-bounds
reads (undefined behaviour in the C++) read `0`; no claim settled below
depends on that choice. -/
def code_at (f : GDScriptFunction) (i : Int) : Int :=
  if 0 ≤ i ∧ i < _code_size f then f.code.getD i.toNat 0 else 0

/-! ## Address resolver

`ADDR_BITS`, `ADDR_MASK` and `ADDR_TYPE_MASK` come from the header:
`ADDR_BITS = 24`, `ADDR_MASK = (1 << ADDR_BITS) - 1`,
`ADDR_TYPE_MASK = ~ADDR_MASK`.  For 32-bit two's-complement `int` words,
`(uint8_t)((a & ADDR_TYPE_MASK) >> ADDR_BITS)` equals
`(a.fdiv 2^24) % 256` and `(uint32_t)(a & ADDR_MASK)` equals `a % 2^24`
(with the nonnegative euclidean `%`), which is how we state them. -/

def ADDR_BITS : Nat := 24

/-- Address-space tag of a packed operand word. -/
def addr_type (a : Int) : Int := (Int.fdiv a (2 ^ ADDR_BITS)) % 256

/-- Index part of a packed operand word. -/
def addr_index (a : Int) : Int := a % (2 ^ ADDR_BITS)

/-! ## Decoder: instruction lengths and fast-path eligibility -/

/-- The opcodes of the three validated-call forms (the variable-length
instructions of the decoder). -/
def is_call_opcode (op : Int) : Bool :=
  decide (op = OPCODE_CALL_BUILTIN_TYPE_VALIDATED ∨
    op = OPCODE_CALL_UTILITY_VALIDATED ∨ op = OPCODE_CALL_GDSCRIPT_UTILITY)

/-- The 38 coercion opcodes together with the `Variant::Type` tag each maps
to, in the order of the `switch` in the scanner. -/
def type_adjust_target : List (Int × Int) :=
  [(OPCODE_TYPE_ADJUST_BOOL, VariantType.BOOL),
   (OPCODE_TYPE_ADJUST_INT, VariantType.INT),
   (OPCODE_TYPE_ADJUST_FLOAT, VariantType.FLOAT),
   (OPCODE_TYPE_ADJUST_STRING, VariantType.STRING),
   (OPCODE_TYPE_ADJUST_VECTOR2, VariantType.VECTOR2),
   (OPCODE_TYPE_ADJUST_VECTOR2I, VariantType.VECTOR2I),
   (OPCODE_TYPE_ADJUST_RECT2, VariantType.RECT2),
   (OPCODE_TYPE_ADJUST_RECT2I, VariantType.RECT2I),
   (OPCODE_TYPE_ADJUST_VECTOR3, VariantType.VECTOR3),
   (OPCODE_TYPE_ADJUST_VECTOR3I, VariantType.VECTOR3I),
   (OPCODE_TYPE_ADJUST_TRANSFORM2D, VariantType.TRANSFORM2D),
   (OPCODE_TYPE_ADJUST_VECTOR4, VariantType.VECTOR4),
   (OPCODE_TYPE_ADJUST_VECTOR4I, VariantType.VECTOR4I),
   (OPCODE_TYPE_ADJUST_PLANE, VariantType.PLANE),
   (OPCODE_TYPE_ADJUST_QUATERNION, VariantType.QUATERNION),
   (OPCODE_TYPE_ADJUST_AABB, VariantType.AABB),
   (OPCODE_TYPE_ADJUST_BASIS, VariantType.BASIS),
   (OPCODE_TYPE_ADJUST_TRANSFORM3D, VariantType.TRANSFORM3D),
   (OPCODE_TYPE_ADJUST_PROJECTION, VariantType.PROJECTION),
   (OPCODE_TYPE_ADJUST_COLOR, VariantType.COLOR),
   (OPCODE_TYPE_ADJUST_STRING_NAME, VariantType.STRING_NAME),
   (OPCODE_TYPE_ADJUST_NODE_PATH, VariantType.NODE_PATH),
   (OPCODE_TYPE_ADJUST_RID, VariantType.RID),
   (OPCODE_TYPE_ADJUST_OBJECT, VariantType.OBJECT),
   (OPCODE_TYPE_ADJUST_CALLABLE, VariantType.CALLABLE),
   (OPCODE_TYPE_ADJUST_SIGNAL, VariantType.SIGNAL),
   (OPCODE_TYPE_ADJUST_DICTIONARY, VariantType.DICTIONARY),
   (OPCODE_TYPE_ADJUST_ARRAY, VariantType.ARRAY),
   (OPCODE_TYPE_ADJUST_PACKED_BYTE_ARRAY, VariantType.PACKED_BYTE_ARRAY),
   (OPCODE_TYPE_ADJUST_PACKED_INT32_ARRAY, VariantType.PACKED_INT32_ARRAY),
   (OPCODE_TYPE_ADJUST_PACKED_INT64_ARRAY, VariantType.PACKED_INT64_ARRAY),
   (OPCODE_TYPE_ADJUST_PACKED_FLOAT32_ARRAY, VariantType.PACKED_FLOAT32_ARRAY),
   (OPCODE_TYPE_ADJUST_PACKED_FLOAT64_ARRAY, VariantType.PACKED_FLOAT64_ARRAY),
   (OPCODE_TYPE_ADJUST_PACKED_STRING_ARRAY, VariantType.PACKED_STRING_ARRAY),
   (OPCODE_TYPE_ADJUST_PACKED_VECTOR2_ARRAY, VariantType.PACKED_VECTOR2_ARRAY),
   (OPCODE_TYPE_ADJUST_PACKED_VECTOR3_ARRAY, VariantType.PACKED_VECTOR3_ARRAY),
   (OPCODE_TYPE_ADJUST_PACKED_COLOR_ARRAY, VariantType.PACKED_COLOR_ARRAY),
   (OPCODE_TYPE_ADJUST_PACKED_VECTOR4_ARRAY, VariantType.PACKED_VECTOR4_ARRAY)]

/-- The list of coercion opcodes (the `OPCODE_TYPE_ADJUST_*` cases). -/
def type_adjust_opcodes : List Int := type_adjust_target.map Prod.fst

/-- The `Variant::Type` a coercion opcode maps to, `Variant::NIL` when the
opcode is not a known coercion (the `default: break` leaving `type` at its
initialiser). -/
def adjust_target_type (op : Int) : Int :=
  (((type_adjust_target.find? (fun p => p.1 == op)).map Prod.snd).getD VariantType.NIL)

/-- The `opcode_size_at` lambda: word count of the instruction at `p_ip`.
Out-of-range positions are clamped to 1; the case groups follow the `switch`
in the source (validated calls read the trailing argument-count word). -/
def opcode_size_at (f : GDScriptFunction) (p_ip : Int) : Int :=
  if p_ip < 0 ∨ _code_size f ≤ p_ip then 1
  else if code_at f p_ip = OPCODE_OPERATOR_VALIDATED then 5
  else if code_at f p_ip = OPCODE_SET_NAMED_VALIDATED ∨
      code_at f p_ip = OPCODE_GET_NAMED_VALIDATED then 4
  else if code_at f p_ip = OPCODE_SET_KEYED_VALIDATED ∨
      code_at f p_ip = OPCODE_GET_KEYED_VALIDATED ∨
      code_at f p_ip = OPCODE_SET_INDEXED_VALIDATED ∨
      code_at f p_ip = OPCODE_GET_INDEXED_VALIDATED then 5
  else if code_at f p_ip = OPCODE_CALL_BUILTIN_TYPE_VALIDATED ∨
      code_at f p_ip = OPCODE_CALL_UTILITY_VALIDATED ∨
      code_at f p_ip = OPCODE_CALL_GDSCRIPT_UTILITY then 4 + code_at f (p_ip + 1)
  else if code_at f p_ip ∈ type_adjust_opcodes then 2
  else 1

/-- The `is_supported` lambda: static fast-path eligibility of an opcode. -/
def is_supported (op : Int) : Bool :=
  decide (op = OPCODE_OPERATOR_VALIDATED ∨
    op = OPCODE_SET_NAMED_VALIDATED ∨ op = OPCODE_GET_NAMED_VALIDATED ∨
    op = OPCODE_SET_KEYED_VALIDATED ∨ op = OPCODE_GET_KEYED_VALIDATED ∨
    op = OPCODE_SET_INDEXED_VALIDATED ∨ op = OPCODE_GET_INDEXED_VALIDATED ∨
    op = OPCODE_CALL_BUILTIN_TYPE_VALIDATED ∨
    op = OPCODE_CALL_UTILITY_VALIDATED ∨ op = OPCODE_CALL_GDSCRIPT_UTILITY ∨
    op ∈ type_adjust_opcodes)

/-! ## Native steps -/

/-- The `NativeCallStep` callee-kind enumeration. -/
@[simp] def CALL_BUILTIN : Int := 0
@[simp] def CALL_UTILITY : Int := 1
@[simp] def CALL_GDS_UTILITY : Int := 2

/-- One decoded fast-path operation (the tagged `NativeStep` union).  Opaque
function-table pointers are represented by the table index that selected
them; for the two `reinterpret_cast` call forms, `func` is the raw code word
(the bits the C++ reinterprets as a pointer); for the built-in form, `func`
is the validated index into the built-in-method table.  The `base_type` and
`base_index` fields of a non-built-in call are unset in the C++ and are `0`
here. -/
inductive NativeStep where
  | STEP_OPERATOR (a_type b_type dst_type a_index b_index dst_index : Int)
      (evaluator : Int) (unary : Bool)
  | STEP_NAMED_SET (dst_type dst_index value_type value_index : Int) (setter : Int)
  | STEP_NAMED_GET (src_type src_index dst_type dst_index : Int) (getter : Int)
  | STEP_KEYED_SET (dst_type dst_index key_type key_index value_type value_index : Int)
      (setter : Int)
  | STEP_KEYED_GET (src_type src_index key_type key_index dst_type dst_index : Int)
      (getter : Int)
  | STEP_INDEXED_SET (dst_type dst_index index_type index_index value_type value_index : Int)
      (setter : Int)
  | STEP_INDEXED_GET (src_type src_index index_type index_index dst_type dst_index : Int)
      (getter : Int)
  | STEP_CALL_VALIDATED (call_kind : Int) (argc : Int)
      (arg_types arg_indices : List Int)
      (base_type base_index dst_type dst_index : Int) (func : Int)
  | STEP_TYPE_ADJUST (dst_type dst_index target_type : Int)
deriving DecidableEq

/-! ## Step builders

Each builder mirrors one `build_*_step` lambda: it reads the operand words at
the fixed offsets, validates the trailing table index against the bound
table's length where the C++ does, and produces the step, or `none` where the
C++ returns `false`. -/

/-- Unary hint lookup: the C++ inserts every hint into a `HashMap` (a later
insert for the same ip overwrites an earlier one, hence the `reverse`) and a
miss defaults to binary (`false`). -/
def unary_hint (f : GDScriptFunction) (ip : Int) : Bool :=
  (((f.native_operator_hints.reverse.find? (fun h => h.1 == ip)).map Prod.snd).getD false)

/-- The `build_operator_step` lambda. -/
def build_operator_step (f : GDScriptFunction) (ip : Int) : Option NativeStep :=
  if code_at f (ip + 4) < 0 ∨ f.operator_funcs_count ≤ code_at f (ip + 4) then none
  else
    let a_address := code_at f (ip + 1)
    let b_address := code_at f (ip + 2)
    let dst_address := code_at f (ip + 3)
    some (.STEP_OPERATOR (addr_type a_address) (addr_type b_address)
      (addr_type dst_address) (addr_index a_address) (addr_index b_address)
      (addr_index dst_address) (code_at f (ip + 4)) (unary_hint f ip))

/-- The `build_keyed_set_step` lambda. -/
def build_keyed_set_step (f : GDScriptFunction) (ip : Int) : Option NativeStep :=
  if code_at f (ip + 4) < 0 ∨ f.keyed_setters_count ≤ code_at f (ip + 4) then none
  else
    let dst_address := code_at f (ip + 1)
    let key_address := code_at f (ip + 2)
    let value_address := code_at f (ip + 3)
    some (.STEP_KEYED_SET (addr_type dst_address) (addr_index dst_address)
      (addr_type key_address) (addr_index key_address)
      (addr_type value_address) (addr_index value_address) (code_at f (ip + 4)))

/-- The `build_keyed_get_step` lambda. -/
def build_keyed_get_step (f : GDScriptFunction) (ip : Int) : Option NativeStep :=
  if code_at f (ip + 4) < 0 ∨ f.keyed_getters_count ≤ code_at f (ip + 4) then none
  else
    let src_address := code_at f (ip + 1)
    let key_address := code_at f (ip + 2)
    let dst_address := code_at f (ip + 3)
    some (.STEP_KEYED_GET (addr_type src_address) (addr_index src_address)
      (addr_type key_address) (addr_index key_address)
      (addr_type dst_address) (addr_index dst_address) (code_at f (ip + 4)))

/-- The `build_indexed_set_step` lambda. -/
def build_indexed_set_step (f : GDScriptFunction) (ip : Int) : Option NativeStep :=
  if code_at f (ip + 4) < 0 ∨ f.indexed_setters_count ≤ code_at f (ip + 4) then none
  else
    let dst_address := code_at f (ip + 1)
    let index_address := code_at f (ip + 2)
    let value_address := code_at f (ip + 3)
    some (.STEP_INDEXED_SET (addr_type dst_address) (addr_index dst_address)
      (addr_type index_address) (addr_index index_address)
      (addr_type value_address) (addr_index value_address) (code_at f (ip + 4)))

/-- The `build_indexed_get_step` lambda. -/
def build_indexed_get_step (f : GDScriptFunction) (ip : Int) : Option NativeStep :=
  if code_at f (ip + 4) < 0 ∨ f.indexed_getters_count ≤ code_at f (ip + 4) then none
  else
    let src_address := code_at f (ip + 1)
    let index_address := code_at f (ip + 2)
    let dst_address := code_at f (ip + 3)
    some (.STEP_INDEXED_GET (addr_type src_address) (addr_index src_address)
      (addr_type index_address) (addr_index index_address)
      (addr_type dst_address) (addr_index dst_address) (code_at f (ip + 4)))

/-- The `build_named_set_step` lambda. -/
def build_named_set_step (f : GDScriptFunction) (ip : Int) : Option NativeStep :=
  if code_at f (ip + 3) < 0 ∨ f.setters_count ≤ code_at f (ip + 3) then none
  else
    let dst_address := code_at f (ip + 1)
    let value_address := code_at f (ip + 2)
    some (.STEP_NAMED_SET (addr_type dst_address) (addr_index dst_address)
      (addr_type value_address) (addr_index value_address) (code_at f (ip + 3)))

/-- The `build_named_get_step` lambda. -/
def build_named_get_step (f : GDScriptFunction) (ip : Int) : Option NativeStep :=
  if code_at f (ip + 3) < 0 ∨ f.getters_count ≤ code_at f (ip + 3) then none
  else
    let src_address := code_at f (ip + 1)
    let dst_address := code_at f (ip + 2)
    some (.STEP_NAMED_GET (addr_type src_address) (addr_index src_address)
      (addr_type dst_address) (addr_index dst_address) (code_at f (ip + 3)))

/-- The `build_call_step` lambda.  A negative leading argument-count word or a
negative trailing argument-count word fails; only the built-in-type form
validates its trailing word against a table (`_builtin_methods_count`); the
utility and language-utility forms `reinterpret_cast` the trailing word with
no validation (modelled by storing the raw word). -/
def build_call_step (f : GDScriptFunction) (ip : Int) : Option NativeStep :=
  if code_at f (ip + 1) < 0 then none
  else if code_at f (ip + 2 + code_at f (ip + 1)) < 0 then none
  else
    let argc_value := code_at f (ip + 2 + code_at f (ip + 1))
    let arg_types := (List.range argc_value.toNat).map
      (fun i => addr_type (code_at f (ip + 2 + (i : Int))))
    let arg_indices := (List.range argc_value.toNat).map
      (fun i => addr_index (code_at f (ip + 2 + (i : Int))))
    if code_at f ip = OPCODE_CALL_BUILTIN_TYPE_VALIDATED then
      if code_at f (ip + argc_value + 5) < 0 ∨
          f.builtin_methods_count ≤ code_at f (ip + argc_value + 5) then none
      else
        some (.STEP_CALL_VALIDATED CALL_BUILTIN argc_value arg_types arg_indices
          (addr_type (code_at f (ip + 2 + argc_value)))
          (addr_index (code_at f (ip + 2 + argc_value)))
          (addr_type (code_at f (ip + 2 + argc_value + 1)))
          (addr_index (code_at f (ip + 2 + argc_value + 1)))
          (code_at f (ip + argc_value + 5)))
    else if code_at f ip = OPCODE_CALL_UTILITY_VALIDATED then
      some (.STEP_CALL_VALIDATED CALL_UTILITY argc_value arg_types arg_indices
        0 0
        (addr_type (code_at f (ip + 2 + argc_value)))
        (addr_index (code_at f (ip + 2 + argc_value)))
        (code_at f (ip + argc_value + 4)))
    else if code_at f ip = OPCODE_CALL_GDSCRIPT_UTILITY then
      some (.STEP_CALL_VALIDATED CALL_GDS_UTILITY argc_value arg_types arg_indices
        0 0
        (addr_type (code_at f (ip + 2 + argc_value)))
        (addr_index (code_at f (ip + 2 + argc_value)))
        (code_at f (ip + argc_value + 4)))
    else none

/-- One inner-loop iteration's `switch (current_op)`: decode the instruction
at `ip` into a step, `none` on any decode failure (including the unknown
coercion tag falling through to `Variant::NIL`). -/
def decode_step (f : GDScriptFunction) (ip : Int) : Option NativeStep :=
  if code_at f ip = OPCODE_OPERATOR_VALIDATED then build_operator_step f ip
  else if code_at f ip = OPCODE_SET_NAMED_VALIDATED then build_named_set_step f ip
  else if code_at f ip = OPCODE_GET_NAMED_VALIDATED then build_named_get_step f ip
  else if code_at f ip = OPCODE_SET_KEYED_VALIDATED then build_keyed_set_step f ip
  else if code_at f ip = OPCODE_GET_KEYED_VALIDATED then build_keyed_get_step f ip
  else if code_at f ip = OPCODE_SET_INDEXED_VALIDATED then build_indexed_set_step f ip
  else if code_at f ip = OPCODE_GET_INDEXED_VALIDATED then build_indexed_get_step f ip
  else if code_at f ip = OPCODE_CALL_BUILTIN_TYPE_VALIDATED ∨
      code_at f ip = OPCODE_CALL_UTILITY_VALIDATED ∨
      code_at f ip = OPCODE_CALL_GDSCRIPT_UTILITY then build_call_step f ip
  else if adjust_target_type (code_at f ip) = VariantType.NIL then none
  else
    some (.STEP_TYPE_ADJUST (addr_type (code_at f (ip + 1)))
      (addr_index (code_at f (ip + 1))) (adjust_target_type (code_at f ip)))

/-! ## Segments and the scan -/

/-- A `NativeOperatorSegment`: a half-open instruction range and its decoded
steps. -/
structure NativeOperatorSegment where
  start_ip : Int
  end_ip : Int
  steps : List NativeStep
deriving DecidableEq

/-- Result of the inner (segment-growing) loop: the steps decoded, the final
cursor, and whether the loop ended by a decode failure (the `cursor =
_code_size; continue;` path). -/
structure InnerScanResult where
  steps : List NativeStep
  cursor : Int
  failed : Bool
deriving DecidableEq

/-- The inner loop of the scan, growing one segment from `cursor`: stop at an
ineligible opcode or at/past the end of stream; on decode failure jump the
cursor to `_code_size`; on success append the step and advance by the
instruction length.  Fuel-indexed; `inner_scan_min_fuel` below shows the fuel
used never runs out. -/
def inner_scan (f : GDScriptFunction) : Nat → Int → InnerScanResult
  | 0, cursor => ⟨[], cursor, false⟩
  | Nat.succ n, cursor =>
    if cursor < _code_size f then
      if is_supported (code_at f cursor) = true then
        match decode_step f cursor with
        | none => ⟨[], _code_size f, true⟩
        | some step =>
          let r := inner_scan f n (cursor + opcode_size_at f cursor)
          ⟨step :: r.steps, r.cursor, r.failed⟩
      else ⟨[], cursor, false⟩
    else ⟨[], cursor, false⟩

/-- The outer scan: skip ineligible instructions by their length; at an
eligible one, grow a segment with the inner loop, record it, and resume at
the segment's end cursor.  Fuel-indexed; `outer_scan_stable` below shows the
fuel used by `prepare_native_jit` suffices. -/
def outer_scan (f : GDScriptFunction) : Nat → Int → List NativeOperatorSegment
  | 0, _ => []
  | Nat.succ n, ip =>
    if ip < _code_size f then
      if is_supported (code_at f ip) = true then
        let r := inner_scan f ((_code_size f).toNat + 1) ip
        { start_ip := ip, end_ip := r.cursor, steps := r.steps } :: outer_scan f n r.cursor
      else outer_scan f n (ip + opcode_size_at f ip)
    else []

/-- The fixed minimum profitability threshold `k_min_native_steps`. -/
def k_min_native_steps : Nat := 10

/-- The segment index build: a dense array of `-1`, then each surviving
segment's list slot written at its `start_ip` (guarded by the bounds check
the source performs). -/
def build_segment_index (f : GDScriptFunction)
    (segs : List NativeOperatorSegment) : List Int :=
  segs.enum.foldl
    (fun acc p =>
      if 0 ≤ p.2.start_ip ∧ p.2.start_ip < (f.code.length : Int) then
        acc.set p.2.start_ip.toNat (p.1 : Int)
      else acc)
    (List.replicate f.code.length (-1))

/-- The outputs `prepare_native_jit` writes back into the function object. -/
structure PrepResult where
  native_operator_segments : List NativeOperatorSegment
  native_segment_lookup : List Int
  native_segment_index_by_ip : List Int
  native_segments_ready : Bool
deriving DecidableEq

/-- The whole of `GDScriptFunction::prepare_native_jit`: clear everything; a
null code pointer publishes empty results as ready; otherwise scan, filter
segments below the threshold (the source guards the filter by non-emptiness,
as here), build the index when the stream is non-empty, and mark ready. -/
def prepare_native_jit (f : GDScriptFunction) : PrepResult :=
  if f.has_code_ptr = false then
    { native_operator_segments := [], native_segment_lookup := [],
      native_segment_index_by_ip := [], native_segments_ready := true }
  else
    let segments := outer_scan f ((_code_size f).toNat + 1) 0
    let filtered :=
      if segments.isEmpty then segments
      else segments.filter (fun seg => decide (¬ seg.steps.length < k_min_native_steps))
    let index :=
      if 0 < _code_size f then build_segment_index f filtered else []
    { native_operator_segments := filtered, native_segment_lookup := [],
      native_segment_index_by_ip := index, native_segments_ready := true }

/-! ## The claim-side instruction walk

The claims speak of "the instructions in `[start_ip, end_ip)`".  This walk
enumerates instruction start positions from `ip` using the decoder's length
function, advancing by at least one word so the enumeration is well defined
on arbitrary ranges (inside scanned segments the length is always positive,
so the `max` is invisible there). -/

def instr_positions (f : GDScriptFunction) : Nat → Int → Int → List Int
  | 0, _, _ => []
  | Nat.succ n, ip, stop =>
    if ip < stop then
      ip :: instr_positions f n (ip + max 1 (opcode_size_at f ip)) stop
    else []

/-- The instruction start positions in `[ip, stop)` (fuel instantiated with
the range width, which `instr_positions_stable` shows is enough). -/
def instr_positions_in (f : GDScriptFunction) (ip stop : Int) : List Int :=
  instr_positions f (stop - ip).toNat ip stop

/-! ## Resumable execution state

`GDScriptFunctionState` is modelled sequentially: every registry read and
mutation of one `resume` call happens as one atomic step, mirroring the
single mutex the C++ holds around the liveness checks and removals.  The
underlying `GDScriptFunction*` pointer is an opaque identity (`Option Nat`,
`none` for null); `Ref<GDScriptFunctionState>` handles are identities too.
Variant values are opaque except for the one shape `resume` inspects: a
ref-counted value that casts to a `GDScriptFunctionState`, carrying that
state's `function` pointer.  The interpreter call
`function->call(nullptr, nullptr, 0, err, &state)` is an external
collaborator, so its return value is a parameter of `resume`. -/

/-- A script `Variant` as far as `resume` can observe it: the neutral value
`Variant()`, an opaque non-state value, or a reference to a
`GDScriptFunctionState` (ref-counted, castable) exposing that state's
`function` pointer. -/
inductive GVariant where
  | nil
  | plain (v : Nat)
  | func_state_ref (function : Option Nat)
deriving DecidableEq

/-- The first `GDScriptFunction::FIXED_ADDRESSES_MAX` stack addresses are
reserved and never copied into a suspended state's stack; the constant lives
in the header, and nothing below depends on its exact value. -/
def FIXED_ADDRESSES_MAX : Nat := 3

/-- The fields of `GDScriptFunctionState` (with the parts of its embedded
`state` that `resume`, `is_valid` and `_clear_stack` touch).
`scripts_in_list` and `instances_in_list` are membership of the two liveness
registries (`scripts_list.in_list()` / `instances_list.in_list()`);
`has_instance` is `state.instance != nullptr`; `first_state` is the chain
root handle (`none` for an invalid `Ref`). -/
structure GDScriptFunctionState where
  function : Option Nat
  scripts_in_list : Bool
  has_instance : Bool
  instances_in_list : Bool
  result : GVariant
  stack : List GVariant
  stack_size : Nat
  first_state : Option Nat
deriving DecidableEq

/-- `GDScriptFunctionState::is_valid`: the cheap check is just a null test on
`function`; the extended check additionally requires registry liveness of the
script and, when an instance is bound, of the instance. -/
def is_valid (s : GDScriptFunctionState) (p_extended_check : Bool) : Bool :=
  if s.function = none then false
  else if p_extended_check then
    if s.scripts_in_list = false then false
    else if s.has_instance = true ∧ s.instances_in_list = false then false
    else true
  else true

/-- `GDScriptFunctionState::_clear_stack`: finalize every stack slot beyond
the reserved prefix (modelled by dropping them) and zero the recorded size;
a state whose `stack_size` is already zero is untouched. -/
def _clear_stack (s : GDScriptFunctionState) : GDScriptFunctionState :=
  if s.stack_size ≠ 0 then
    { s with stack := s.stack.take FIXED_ADDRESSES_MAX, stack_size := 0 }
  else s

/-- Everything one call of `GDScriptFunctionState::resume` produces: the
returned `Variant`, the updated state of `this`, whether the interpreter was
re-entered, and, when the interpreter's return was a fresh same-function
suspension, the chain-root handle written into that suspension's
`first_state` (`none` when no such write happened). -/
structure ResumeResult where
  ret : GVariant
  self : GDScriptFunctionState
  interp_called : Bool
  new_first_state : Option Nat
  stack_finalized : Bool
deriving DecidableEq

/-- `GDScriptFunctionState::resume`.  `self_id` is the identity of `this`
(what `Ref<GDScriptFunctionState>(this)` captures); `interp_ret` is the value
the interpreter call returns.  The three early returns are, in source order:
the `ERR_FAIL_NULL_V` null-function guard, the stale-script check and the
stale-instance check (in both debug and release builds these return
`Variant()` without mutating the state).  On the success path the state is
removed from both registries, `p_arg` is injected as the pending result, the
interpreter runs, a same-function suspension in the return value marks the
call uncompleted and adopts the chain root, `function` is nulled, the pending
result is reset, and a completed call finalizes the saved stack. -/
def resume (self_id : Nat) (s : GDScriptFunctionState) (p_arg : GVariant)
    (interp_ret : GVariant) : ResumeResult :=
  if s.function = none then ⟨GVariant.nil, s, false, none, false⟩
  else if s.scripts_in_list = false then ⟨GVariant.nil, s, false, none, false⟩
  else if s.has_instance = true ∧ s.instances_in_list = false then
    ⟨GVariant.nil, s, false, none, false⟩
  else
    let s1 := { s with
      scripts_in_list := false
      instances_in_list := false
      result := p_arg }
    let completed : Bool :=
      match interp_ret with
      | GVariant.func_state_ref fn => !(fn == s.function)
      | _ => true
    let new_first : Option Nat :=
      if completed = false then
        some (match s.first_state with | some root => root | none => self_id)
      else none
    let s2 := { s1 with function := none, result := GVariant.nil }
    let s3 := if completed = true then _clear_stack s2 else s2
    ⟨interp_ret, s3, true, new_first, completed⟩

/-! ## Concrete functions used to instantiate the theorems

`mk_fn` builds a function whose bound tables are all empty (every `_count` is
`0`) and that has a code pointer; under the opcode assignment above,
`[1, a, b, d, x]` is a validated-operator instruction and `[11, d]` is a
`TYPE_ADJUST_BOOL` instruction. -/

def mk_fn (code : List Int) : GDScriptFunction := {
  code := code
  has_code_ptr := true
  operator_funcs_count := 0
  setters_count := 0
  getters_count := 0
  keyed_setters_count := 0
  keyed_getters_count := 0
  indexed_setters_count := 0
  indexed_getters_count := 0
  builtin_methods_count := 0
  native_operator_hints := [] }

/-- A run of `k` consecutive `TYPE_ADJUST_BOOL` instructions (each two words,
always decodable). -/
def type_adjust_run (k : Nat) : List Int :=
  (List.range k).flatMap (fun _ => [OPCODE_TYPE_ADJUST_BOOL, 0])

/-- A validated-operator instruction whose trailing table index is out of
range (the operator table is empty), followed by ten decodable coercion
instructions: a decode-local failure at ip 0, eligible code after it. -/
def fn_decode_fail_first : GDScriptFunction :=
  mk_fn ([OPCODE_OPERATOR_VALIDATED, 0, 0, 0, 0] ++ type_adjust_run 10)

/-- Just the ten decodable coercion instructions. -/
def fn_eligible_run : GDScriptFunction := mk_fn (type_adjust_run 10)

/-- Ten decodable coercion instructions, then a validated-operator
instruction whose table index is out of range, then one ineligible opcode. -/
def fn_run_then_fail : GDScriptFunction :=
  mk_fn (type_adjust_run 10 ++ [OPCODE_OPERATOR_VALIDATED, 0, 0, 0, 0] ++ [0])

/-- A zero-argument validated-utility call whose trailing function word is
the negative value `-5`; every bound table of the function is empty. -/
def fn_call_utility_unchecked : GDScriptFunction :=
  mk_fn [OPCODE_CALL_UTILITY_VALIDATED, 0, 0, 0, -5]

/-- A validated-utility call opcode whose trailing argument-count word is
`-10`. -/
def fn_call_negative_argc : GDScriptFunction :=
  mk_fn [OPCODE_CALL_UTILITY_VALIDATED, -10]

/-- A live suspended state: non-null function, both registries live, an
instance bound, five saved stack slots. -/
def st_live : GDScriptFunctionState := {
  function := some 7
  scripts_in_list := true
  has_instance := true
  instances_in_list := true
  result := GVariant.nil
  stack := [GVariant.nil, GVariant.nil, GVariant.nil, GVariant.plain 4, GVariant.plain 5]
  stack_size := 5
  first_state := none }

/-- The same state after its owning script was torn down (removed from the
script liveness registry). -/
def st_stale_script : GDScriptFunctionState := { st_live with scripts_in_list := false }

/-! ## Decoder lemmas -/

/-- The stream length is nonnegative. -/
lemma code_size_nonneg (f : GDScriptFunction) : 0 ≤ _code_size f :=
  Int.natCast_nonneg _

/-- Out-of-range positions are clamped to a length of exactly 1. -/
lemma opcode_size_at_out_of_range (f : GDScriptFunction) (p_ip : Int)
    (h : p_ip < 0 ∨ _code_size f ≤ p_ip) : opcode_size_at f p_ip = 1 := by
  unfold opcode_size_at
  rw [if_pos h]

/-- At a position whose opcode is not one of the three validated-call forms,
the decoded length is at least 1. -/
lemma opcode_size_at_pos_of_not_call (f : GDScriptFunction) (p_ip : Int)
    (h : is_call_opcode (code_at f p_ip) = false) : 1 ≤ opcode_size_at f p_ip := by
  simp only [is_call_opcode, decide_eq_false_iff_not] at h
  unfold opcode_size_at
  split_ifs with hr hop hnm hky hcall hadj <;> first | norm_num | exact absurd hcall h

/-- When the trailing argument-count word is nonnegative, the decoded length
is at least 1 (for call opcodes it is then at least 4). -/
lemma opcode_size_at_pos_of_nonneg_argc (f : GDScriptFunction) (p_ip : Int)
    (h : 0 ≤ code_at f (p_ip + 1)) : 1 ≤ opcode_size_at f p_ip := by
  unfold opcode_size_at
  split_ifs with hr hop hnm hky hcall hadj <;> omega

/-- An ineligible opcode always decodes to length 1 (the `default` case of
the size switch covers exactly the unsupported opcodes). -/
lemma opcode_size_at_of_unsupported (f : GDScriptFunction) (p_ip : Int)
    (h : is_supported (code_at f p_ip) = false) : opcode_size_at f p_ip = 1 := by
  simp only [is_supported, decide_eq_false_iff_not] at h
  unfold opcode_size_at
  split_ifs with hr hop hnm hky hcall hadj <;> first | rfl | exact absurd (by tauto) h

/-- A successfully built call step had a nonnegative leading argument-count
word. -/
lemma build_call_step_argc_nonneg {f : GDScriptFunction} {ip : Int} {st : NativeStep}
    (h : build_call_step f ip = some st) : 0 ≤ code_at f (ip + 1) := by
  unfold build_call_step at h
  split_ifs at h <;> first | simp_all | omega

/-- A successfully decoded instruction has length at least 1 (constant-length
forms are 2, 4 or 5 words; a call that decoded successfully has a nonnegative
argument count, so its length is at least 4; out-of-range clamps to 1). -/
lemma decode_step_size_pos {f : GDScriptFunction} {ip : Int} {st : NativeStep}
    (h : decode_step f ip = some st) : 1 ≤ opcode_size_at f ip := by
  cases hc : is_call_opcode (code_at f ip) with
  | false => exact opcode_size_at_pos_of_not_call f ip hc
  | true =>
    have hb : build_call_step f ip = some st := by
      simp only [is_call_opcode, decide_eq_true_eq] at hc
      unfold decode_step at h
      rcases hc with e | e | e <;> rw [e] at h <;> simpa using h
    exact opcode_size_at_pos_of_nonneg_argc f ip (build_call_step_argc_nonneg hb)

/-! ## Walk lemmas -/

/-- The position walk does not depend on its fuel once the fuel covers the
range width. -/
lemma instr_positions_stable (f : GDScriptFunction) :
    ∀ (k k' : Nat) (ip stop : Int), (stop - ip).toNat ≤ k → (stop - ip).toNat ≤ k' →
    instr_positions f k ip stop = instr_positions f k' ip stop := by
  intro k
  induction k with
  | zero =>
    intro k' ip stop hk hk'
    have hlt : ¬ ip < stop := by omega
    cases k' <;> simp [instr_positions, hlt]
  | succ n ih =>
    intro k' ip stop hk hk'
    cases k' with
    | zero =>
      have hlt : ¬ ip < stop := by omega
      simp [instr_positions, hlt]
    | succ m =>
      by_cases hlt : ip < stop
      · simp only [instr_positions, if_pos hlt]
        have hM : 1 ≤ max 1 (opcode_size_at f ip) := le_max_left _ _
        set M := max 1 (opcode_size_at f ip) with hMdef
        exact congrArg (ip :: ·) (ih m (ip + M) stop (by omega) (by omega))
      · simp [instr_positions, hlt]

/-- An empty range has no instruction positions. -/
lemma instr_positions_in_nil (f : GDScriptFunction) {ip stop : Int} (h : stop ≤ ip) :
    instr_positions_in f ip stop = [] := by
  unfold instr_positions_in
  have h0 : (stop - ip).toNat = 0 := by omega
  rw [h0]
  rfl

/-- Unfolding the position walk by one instruction of positive length. -/
lemma instr_positions_in_cons (f : GDScriptFunction) {ip stop : Int}
    (hlt : ip < stop) (hsz : 1 ≤ opcode_size_at f ip) :
    instr_positions_in f ip stop =
      ip :: instr_positions_in f (ip + opcode_size_at f ip) stop := by
  unfold instr_positions_in
  obtain ⟨m, hm⟩ : ∃ m, (stop - ip).toNat = m + 1 := ⟨(stop - ip).toNat - 1, by omega⟩
  rw [hm]
  simp only [instr_positions, if_pos hlt]
  rw [max_eq_right hsz]
  set S := opcode_size_at f ip with hS
  exact congrArg (ip :: ·) (instr_positions_stable f m _ (ip + S) stop (by omega) (by omega))

/-! ## Inner-scan lemmas -/

/-- The inner loop never moves the cursor backwards. -/
lemma inner_scan_le (f : GDScriptFunction) :
    ∀ (n : Nat) (cursor : Int), cursor ≤ (inner_scan f n cursor).cursor := by
  intro n
  induction n with
  | zero => intro cursor; simp [inner_scan]
  | succ n ih =>
    intro cursor
    simp only [inner_scan]
    split_ifs with h1 h2
    · rcases hd : decode_step f cursor with _ | st
      · simp only [hd]
        have := code_size_nonneg f
        omega
      · simp only [hd]
        have hsz := decode_step_size_pos hd
        have hrec := ih (cursor + opcode_size_at f cursor)
        set S := opcode_size_at f cursor
        omega
    · simp
    · simp

/-- A failed inner scan left the cursor at the end of the stream: the
`cursor = _code_size; continue;` path is the only way `failed` becomes
true. -/
lemma inner_scan_failed_cursor (f : GDScriptFunction) :
    ∀ (n : Nat) (cursor : Int), (inner_scan f n cursor).failed = true →
    (inner_scan f n cursor).cursor = _code_size f := by
  intro n
  induction n with
  | zero => intro cursor h; simp [inner_scan] at h
  | succ n ih =>
    intro cursor h
    simp only [inner_scan] at h ⊢
    split_ifs at h ⊢ with h1 h2
    · rcases hd : decode_step f cursor with _ | st
      · simp [hd]
      · simp only [hd] at h ⊢
        exact ih _ (by simpa using h)

/-- Opening a segment at an in-range eligible instruction strictly advances
the cursor, provided the fuel covers the remaining stream. -/
lemma inner_scan_progress (f : GDScriptFunction) (n : Nat) (cursor : Int)
    (hfuel : (_code_size f - cursor).toNat < n) (hlt : cursor < _code_size f)
    (hsup : is_supported (code_at f cursor) = true) :
    cursor < (inner_scan f n cursor).cursor := by
  cases n with
  | zero => omega
  | succ n =>
    simp only [inner_scan, if_pos hlt, if_pos hsup]
    rcases hd : decode_step f cursor with _ | st
    · simpa using hlt
    · simp only []
      have hsz := decode_step_size_pos hd
      have hrec := inner_scan_le f n (cursor + opcode_size_at f cursor)
      set S := opcode_size_at f cursor
      omega

/-- A non-failed inner scan stops at or past the end of the stream or at an
ineligible instruction. -/
lemma inner_scan_not_failed_end (f : GDScriptFunction) :
    ∀ (n : Nat) (cursor : Int), (_code_size f - cursor).toNat < n →
    (inner_scan f n cursor).failed = false →
    (_code_size f ≤ (inner_scan f n cursor).cursor ∨
      is_supported (code_at f (inner_scan f n cursor).cursor) = false) := by
  intro n
  induction n with
  | zero => intro cursor hfuel; omega
  | succ n ih =>
    intro cursor hfuel h
    simp only [inner_scan] at h ⊢
    split_ifs at h ⊢ with h1 h2
    · rcases hd : decode_step f cursor with _ | st
      · simp [hd] at h
      · simp only [hd] at h ⊢
        have hsz := decode_step_size_pos hd
        refine ih (cursor + opcode_size_at f cursor) ?_ (by simpa using h)
        set S := opcode_size_at f cursor
        omega
    · right
      simpa using h2
    · left
      show _code_size f ≤ cursor
      omega

/-- A non-failed inner scan decoded exactly the instructions of
`[cursor, end)` — one step per walked position — and every walked position
holds an eligible opcode. -/
lemma inner_scan_not_failed_walk (f : GDScriptFunction) :
    ∀ (n : Nat) (cursor : Int), (_code_size f - cursor).toNat < n →
    (inner_scan f n cursor).failed = false →
    ((inner_scan f n cursor).steps.length =
        (instr_positions_in f cursor (inner_scan f n cursor).cursor).length ∧
      ∀ p ∈ instr_positions_in f cursor (inner_scan f n cursor).cursor,
        is_supported (code_at f p) = true) := by
  intro n
  induction n with
  | zero => intro cursor hfuel; omega
  | succ n ih =>
    intro cursor hfuel h
    simp only [inner_scan] at h ⊢
    split_ifs at h ⊢ with h1 h2
    · rcases hd : decode_step f cursor with _ | st
      · simp [hd] at h
      · simp only [hd] at h ⊢
        have hsz := decode_step_size_pos hd
        have hfuel2 : (_code_size f - (cursor + opcode_size_at f cursor)).toNat < n := by
          set S := opcode_size_at f cursor
          omega
        have hrec := ih (cursor + opcode_size_at f cursor) hfuel2 (by simpa using h)
        have hle := inner_scan_le f n (cursor + opcode_size_at f cursor)
        have hcons := instr_positions_in_cons f
          (show cursor < (inner_scan f n (cursor + opcode_size_at f cursor)).cursor by
            set S := opcode_size_at f cursor
            omega) hsz
        constructor
        · simp only [hcons, List.length_cons, List.length_cons]
          exact congrArg Nat.succ hrec.1
        · intro p hp
          rw [hcons] at hp
          rcases List.mem_cons.mp hp with rfl | hp2
          · exact h2
          · exact hrec.2 p hp2
    · have he : instr_positions_in f cursor cursor = [] :=
        instr_positions_in_nil f le_rfl
      simp [he]
    · have he : instr_positions_in f cursor cursor = [] :=
        instr_positions_in_nil f le_rfl
      simp [he]

/-! ## Outer-scan lemmas -/

/-- The outer scan of an exhausted stream produces nothing. -/
lemma outer_scan_nil (f : GDScriptFunction) (n : Nat) (ip : Int)
    (h : _code_size f ≤ ip) : outer_scan f n ip = [] := by
  cases n with
  | zero => rfl
  | succ n => simp [outer_scan, show ¬ ip < _code_size f by omega]

/-- Structural facts about every raw segment the outer scan produces from a
nonnegative start: segments start at or after the scan origin, are non-empty
ranges, end at/past the stream end or at an ineligible instruction, either
end exactly at the stream end (the decode-failure shape) or cover only
eligible instructions with one step per instruction, and the list is ordered
with each segment ending at or before the next one starts. -/
lemma outer_scan_spec (f : GDScriptFunction) :
    ∀ (n : Nat) (ip : Int), 0 ≤ ip → (_code_size f - ip).toNat < n →
    ((∀ s ∈ outer_scan f n ip,
        ip ≤ s.start_ip ∧ s.start_ip < s.end_ip ∧
        (_code_size f ≤ s.end_ip ∨ is_supported (code_at f s.end_ip) = false) ∧
        (s.end_ip = _code_size f ∨
          ((∀ p ∈ instr_positions_in f s.start_ip s.end_ip,
              is_supported (code_at f p) = true) ∧
            s.steps.length = (instr_positions_in f s.start_ip s.end_ip).length))) ∧
      List.Pairwise (fun a b => a.end_ip ≤ b.start_ip) (outer_scan f n ip)) := by
  intro n
  induction n with
  | zero => intro ip h0 hfuel; omega
  | succ n ih =>
    intro ip h0 hfuel
    have hcs := code_size_nonneg f
    by_cases hlt : ip < _code_size f
    · by_cases hsup : is_supported (code_at f ip) = true
      · simp only [outer_scan, if_pos hlt, if_pos hsup]
        set r := inner_scan f ((_code_size f).toNat + 1) ip with hr
        have hfuelI : (_code_size f - ip).toNat < (_code_size f).toNat + 1 := by omega
        have hprog : ip < r.cursor := by
          rw [hr]; exact inner_scan_progress f _ ip hfuelI hlt hsup
        have hfuel2 : (_code_size f - r.cursor).toNat < n := by omega
        have hrec := ih r.cursor (by omega) hfuel2
        have hseg : (_code_size f ≤ r.cursor ∨ is_supported (code_at f r.cursor) = false) ∧
            (r.cursor = _code_size f ∨
              ((∀ p ∈ instr_positions_in f ip r.cursor,
                  is_supported (code_at f p) = true) ∧
                r.steps.length = (instr_positions_in f ip r.cursor).length)) := by
          cases hfl : r.failed with
          | true =>
            have hend : r.cursor = _code_size f := by
              rw [hr]
              exact inner_scan_failed_cursor f _ ip (by rw [← hr]; exact hfl)
            exact ⟨Or.inl (le_of_eq hend.symm), Or.inl hend⟩
          | false =>
            have hend := inner_scan_not_failed_end f _ ip hfuelI (by rw [← hr]; exact hfl)
            have hwalk := inner_scan_not_failed_walk f _ ip hfuelI (by rw [← hr]; exact hfl)
            rw [← hr] at hend hwalk
            exact ⟨hend, Or.inr ⟨hwalk.2, hwalk.1⟩⟩
        constructor
        · intro s hs
          rcases List.mem_cons.mp hs with rfl | hs2
          · exact ⟨le_rfl, hprog, hseg.1, hseg.2⟩
          · have h3 := hrec.1 s hs2
            exact ⟨le_trans (le_of_lt hprog) h3.1, h3.2.1, h3.2.2.1, h3.2.2.2⟩
        · rw [List.pairwise_cons]
          exact ⟨fun s hs => (hrec.1 s hs).1, hrec.2⟩
      · have hsz : opcode_size_at f ip = 1 :=
          opcode_size_at_of_unsupported f ip (by simpa using hsup)
        simp only [outer_scan, if_pos hlt, if_neg hsup, hsz]
        have hrec := ih (ip + 1) (by omega) (by omega)
        exact ⟨fun s hs => ⟨by have := (hrec.1 s hs).1; omega,
          (hrec.1 s hs).2.1, (hrec.1 s hs).2.2.1, (hrec.1 s hs).2.2.2⟩, hrec.2⟩
    · rw [outer_scan_nil f _ ip (by omega)]
      exact ⟨fun s hs => absurd hs (List.not_mem_nil s), List.Pairwise.nil⟩

/-- The outer scan is fuel-insensitive once the fuel exceeds the remaining
stream width: the scan loop terminates within that many iterations. -/
lemma outer_scan_stable (f : GDScriptFunction) :
    ∀ (n m : Nat) (ip : Int), 0 ≤ ip → (_code_size f - ip).toNat < n →
    (_code_size f - ip).toNat < m → outer_scan f n ip = outer_scan f m ip := by
  intro n
  induction n with
  | zero => intro m ip h0 hfuel hfuelm; omega
  | succ n ih =>
    intro m ip h0 hfuel hfuelm
    cases m with
    | zero => omega
    | succ m =>
      have hcs := code_size_nonneg f
      by_cases hlt : ip < _code_size f
      · by_cases hsup : is_supported (code_at f ip) = true
        · simp only [outer_scan, if_pos hlt, if_pos hsup]
          have hfuelI : (_code_size f - ip).toNat < (_code_size f).toNat + 1 := by omega
          have hprog := inner_scan_progress f ((_code_size f).toNat + 1) ip hfuelI hlt hsup
          rw [ih m ((inner_scan f ((_code_size f).toNat + 1) ip).cursor)
            (by omega) (by omega) (by omega)]
        · have hsz : opcode_size_at f ip = 1 :=
            opcode_size_at_of_unsupported f ip (by simpa using hsup)
          simp only [outer_scan, if_pos hlt, if_neg hsup, hsz]
          exact ih m (ip + 1) (by omega) (by omega) (by omega)
      · rw [outer_scan_nil f _ ip (by omega), outer_scan_nil f _ ip (by omega)]

/-! ## Prepared-result lemmas -/

/-- With a live code pointer, the final segment list is the raw scan filtered
by the profitability threshold (with the source's guard on an empty raw
list). -/
lemma prepare_segments_eq (f : GDScriptFunction) (hptr : f.has_code_ptr = true) :
    (prepare_native_jit f).native_operator_segments =
      (if (outer_scan f ((_code_size f).toNat + 1) 0).isEmpty then
        outer_scan f ((_code_size f).toNat + 1) 0
      else (outer_scan f ((_code_size f).toNat + 1) 0).filter
        (fun seg => decide (¬ seg.steps.length < k_min_native_steps))) := by
  unfold prepare_native_jit
  rw [if_neg (by simp [hptr])]

/-- Membership in the final segment list implies the threshold and raw-scan
membership. -/
lemma mem_prepare_segments {f : GDScriptFunction} {s : NativeOperatorSegment}
    (h : s ∈ (prepare_native_jit f).native_operator_segments) :
    k_min_native_steps ≤ s.steps.length ∧
      s ∈ outer_scan f ((_code_size f).toNat + 1) 0 := by
  cases hptr : f.has_code_ptr with
  | false =>
    unfold prepare_native_jit at h
    rw [if_pos (by simp [hptr])] at h
    simp at h
  | true =>
    rw [prepare_segments_eq f hptr] at h
    split_ifs at h with he
    · rw [List.isEmpty_iff] at he
      rw [he] at h
      simp at h
    · have h2 := List.mem_filter.mp h
      refine ⟨?_, h2.1⟩
      have h3 := h2.2
      simp only [decide_eq_true_eq, not_lt] at h3
      exact h3

/-- The final segment list is ordered: each segment ends at or before the
next one starts. -/
lemma prepare_pairwise (f : GDScriptFunction) :
    List.Pairwise (fun a b => a.end_ip ≤ b.start_ip)
      (prepare_native_jit f).native_operator_segments := by
  cases hptr : f.has_code_ptr with
  | false =>
    unfold prepare_native_jit
    rw [if_pos (by simp [hptr])]
    exact List.Pairwise.nil
  | true =>
    rw [prepare_segments_eq f hptr]
    have hcs := code_size_nonneg f
    have hp := (outer_scan_spec f ((_code_size f).toNat + 1) 0 le_rfl (by omega)).2
    split_ifs with he
    · exact hp
    · exact List.Pairwise.sublist (List.filter_sublist _) hp

/-- The structural facts of `outer_scan_spec`, transported to every segment
of the final list. -/
lemma prepare_segment_facts {f : GDScriptFunction} {s : NativeOperatorSegment}
    (h : s ∈ (prepare_native_jit f).native_operator_segments) :
    0 ≤ s.start_ip ∧ s.start_ip < s.end_ip ∧
      (_code_size f ≤ s.end_ip ∨ is_supported (code_at f s.end_ip) = false) ∧
      (s.end_ip = _code_size f ∨
        ((∀ p ∈ instr_positions_in f s.start_ip s.end_ip,
            is_supported (code_at f p) = true) ∧
          s.steps.length = (instr_positions_in f s.start_ip s.end_ip).length)) := by
  have hcs := code_size_nonneg f
  have hm := (mem_prepare_segments h).2
  have hp := (outer_scan_spec f ((_code_size f).toNat + 1) 0 le_rfl (by omega)).1 s hm
  exact hp

/-! ## Resume lemmas -/

/-- Releasing the stack does not touch the function pointer. -/
lemma clear_stack_function (s : GDScriptFunctionState) :
    (_clear_stack s).function = s.function := by
  unfold _clear_stack; split_ifs <;> rfl

/-- Releasing the stack does not touch script-registry membership. -/
lemma clear_stack_scripts (s : GDScriptFunctionState) :
    (_clear_stack s).scripts_in_list = s.scripts_in_list := by
  unfold _clear_stack; split_ifs <;> rfl

/-- Releasing the stack does not touch instance-registry membership. -/
lemma clear_stack_instances (s : GDScriptFunctionState) :
    (_clear_stack s).instances_in_list = s.instances_in_list := by
  unfold _clear_stack; split_ifs <;> rfl

/-- A resume attempt on a state whose function pointer is null is rejected by
the `ERR_FAIL_NULL_V` guard: neutral return, no mutation, no interpreter
re-entry. -/
lemma resume_null_function (self_id : Nat) (s : GDScriptFunctionState)
    (a i : GVariant) (h : s.function = none) :
    resume self_id s a i = ⟨GVariant.nil, s, false, none, false⟩ := by
  unfold resume
  rw [if_pos h]

/-- A resume attempt on a state whose owning script — or, when an instance is
bound, whose instance — is no longer registered live is rejected: neutral
return, no mutation, no interpreter re-entry. -/
lemma resume_stale_eq (self_id : Nat) (s : GDScriptFunctionState) (a i : GVariant)
    (h : s.scripts_in_list = false ∨
      (s.has_instance = true ∧ s.instances_in_list = false)) :
    resume self_id s a i = ⟨GVariant.nil, s, false, none, false⟩ := by
  unfold resume
  rcases h with h1 | h1 <;> split_ifs <;> first | rfl | simp_all

/-- When the precondition checks pass, the interpreter is re-entered. -/
lemma resume_success_interp_called (self_id : Nat) (s : GDScriptFunctionState)
    (a i : GVariant) {fid : Nat} (hf : s.function = some fid)
    (hs : s.scripts_in_list = true)
    (hi : s.has_instance = true → s.instances_in_list = true) :
    (resume self_id s a i).interp_called = true := by
  unfold resume
  rw [if_neg (by simp [hf]), if_neg (by simp [hs]),
    if_neg (by rintro ⟨ha, hb⟩; rw [hi ha] at hb; cases hb)]

/-- When the precondition checks pass, the state leaves the script
registry. -/
lemma resume_success_scripts (self_id : Nat) (s : GDScriptFunctionState)
    (a i : GVariant) {fid : Nat} (hf : s.function = some fid)
    (hs : s.scripts_in_list = true)
    (hi : s.has_instance = true → s.instances_in_list = true) :
    (resume self_id s a i).self.scripts_in_list = false := by
  unfold resume
  rw [if_neg (by simp [hf]), if_neg (by simp [hs]),
    if_neg (by rintro ⟨ha, hb⟩; rw [hi ha] at hb; cases hb)]
  show (if _ then _clear_stack _ else _).scripts_in_list = false
  split_ifs
  · rw [clear_stack_scripts]
  · rfl

/-- When the precondition checks pass, the state leaves the instance
registry. -/
lemma resume_success_instances (self_id : Nat) (s : GDScriptFunctionState)
    (a i : GVariant) {fid : Nat} (hf : s.function = some fid)
    (hs : s.scripts_in_list = true)
    (hi : s.has_instance = true → s.instances_in_list = true) :
    (resume self_id s a i).self.instances_in_list = false := by
  unfold resume
  rw [if_neg (by simp [hf]), if_neg (by simp [hs]),
    if_neg (by rintro ⟨ha, hb⟩; rw [hi ha] at hb; cases hb)]
  show (if _ then _clear_stack _ else _).instances_in_list = false
  split_ifs
  · rw [clear_stack_instances]
  · rfl

/-- When the precondition checks pass, the function pointer is cleared after
the interpreter call. -/
lemma resume_success_function (self_id : Nat) (s : GDScriptFunctionState)
    (a i : GVariant) {fid : Nat} (hf : s.function = some fid)
    (hs : s.scripts_in_list = true)
    (hi : s.has_instance = true → s.instances_in_list = true) :
    (resume self_id s a i).self.function = none := by
  unfold resume
  rw [if_neg (by simp [hf]), if_neg (by simp [hs]),
    if_neg (by rintro ⟨ha, hb⟩; rw [hi ha] at hb; cases hb)]
  show (if _ then _clear_stack _ else _).function = none
  split_ifs
  · rw [clear_stack_function]
  · rfl

/-! ## Further concrete functions for witnesses -/

/-- A zero-argument language-utility call with function word `7`. -/
def fn_call_gds_utility : GDScriptFunction :=
  mk_fn [OPCODE_CALL_GDSCRIPT_UTILITY, 0, 0, 0, 7]

/-- A function whose `_code_ptr` is null. -/
def fn_null_code : GDScriptFunction := { mk_fn [] with has_code_ptr := false }

/-! ## Claim C1 -/

/-- C1, counterexample.  The claim says a decode-local failure (here: the
operator-table index `0` against an empty operator table, at ip 0) closes the
segment before the failing instruction and resumes the outer scan from that
same position, degrading only that one instruction; then the ten eligible
coercion instructions at `[5, 25)` would be scanned and retained — as they
are when they stand alone (`fn_eligible_run`).  Instead the raw scan produces
one segment `[0, 25)` with no steps (the failure jumped the cursor to the end
of the stream) and the final list is empty: the failure removed the whole
rest of the stream from fast-path coverage. -/
theorem C1_counterexample :
    (outer_scan fn_decode_fail_first 26 0).map
      (fun s => (s.start_ip, s.end_ip, s.steps.length)) = [(0, 25, 0)] ∧
    (prepare_native_jit fn_decode_fail_first).native_operator_segments = [] ∧
    (prepare_native_jit fn_eligible_run).native_operator_segments =
      [⟨0, 20, List.replicate 10 (NativeStep.STEP_TYPE_ADJUST 0 0 1)⟩] := by
  exact ⟨by decide, by decide, by decide⟩

/-- C1 (corrected): when decoding a fast-path instruction into a Native Step
fails during segment construction, the failed step is not included (the inner
scan appends only successfully built steps by construction), but the segment
is closed with its end cursor at the end of the stream, and the outer scan —
which resumes from that cursor — finds nothing more to scan: any decode
failure removes the failed instruction and every later instruction from
fast-path coverage in this pass. -/
theorem C1_decode_failure_aborts_scan (f : GDScriptFunction) (n : Nat)
    (cursor : Int) (m : Nat) (h : (inner_scan f n cursor).failed = true) :
    (inner_scan f n cursor).cursor = _code_size f ∧
    outer_scan f m ((inner_scan f n cursor).cursor) = [] := by
  have h1 := inner_scan_failed_cursor f n cursor h
  exact ⟨h1, by rw [h1]; exact outer_scan_nil f m _ le_rfl⟩

/-- C1, witness: the decode failure of `fn_decode_fail_first` at ip 0 leaves
the cursor at the stream end and the outer scan resumed there is empty. -/
theorem C1_decode_failure_aborts_scan_witness :
    (inner_scan fn_decode_fail_first 26 0).failed = true ∧
    (inner_scan fn_decode_fail_first 26 0).cursor = _code_size fn_decode_fail_first ∧
    outer_scan fn_decode_fail_first 5 ((inner_scan fn_decode_fail_first 26 0).cursor) = [] := by
  have h := C1_decode_failure_aborts_scan fn_decode_fail_first 26 0 5 (by decide)
  exact ⟨by decide, h.1, h.2⟩

/-! ## Claim C2 -/

/-- C2, counterexample.  The claim says every instruction of a produced
segment's `[start_ip, end_ip)` is fast-path eligible.  With ten decodable
coercions followed by a failing validated-operator instruction and an
ineligible opcode, the retained segment is `[0, 26)` (the failure extended it
to the stream end); position 25 is an instruction inside that range and its
opcode `0` is not eligible. -/
theorem C2_counterexample :
    ((prepare_native_jit fn_run_then_fail).native_operator_segments.map
      (fun s => (s.start_ip, s.end_ip))) = [((0 : Int), (26 : Int))] ∧
    (25 : Int) ∈ instr_positions_in fn_run_then_fail 0 26 ∧
    is_supported (code_at fn_run_then_fail 25) = false := by
  exact ⟨by decide, by decide, by decide⟩

/-- C2 (corrected): the segments in the final list are pairwise
non-overlapping and ordered by `start_ip` (each segment ends at or before the
next one starts) and are non-empty ranges; each segment ends at or past the
end of stream or at the first ineligible instruction; and each segment
contains only fast-path-eligible instructions in `[start_ip, end_ip)` unless
it was terminated by a decode failure, in which case its `end_ip` is the end
of the stream and ineligible instructions may fall inside the range. -/
theorem C2_segment_ordering_and_guarded_eligibility (f : GDScriptFunction) :
    List.Pairwise (fun a b => a.end_ip ≤ b.start_ip)
      (prepare_native_jit f).native_operator_segments ∧
    ∀ s ∈ (prepare_native_jit f).native_operator_segments,
      s.start_ip < s.end_ip ∧
      (_code_size f ≤ s.end_ip ∨ is_supported (code_at f s.end_ip) = false) ∧
      (s.end_ip = _code_size f ∨
        ∀ p ∈ instr_positions_in f s.start_ip s.end_ip,
          is_supported (code_at f p) = true) := by
  refine ⟨prepare_pairwise f, fun s hs => ?_⟩
  have h := prepare_segment_facts hs
  exact ⟨h.2.1, h.2.2.1, h.2.2.2.imp_right And.left⟩

/-- C2, witness: the retained segment `[0, 26)` of `fn_run_then_fail`
satisfies the amended invariants. -/
theorem C2_segment_ordering_and_guarded_eligibility_witness :
    ((0 : Int) < 26) ∧
    (_code_size fn_run_then_fail ≤ 26 ∨
      is_supported (code_at fn_run_then_fail 26) = false) ∧
    ((26 : Int) = _code_size fn_run_then_fail ∨
      ∀ p ∈ instr_positions_in fn_run_then_fail 0 26,
        is_supported (code_at fn_run_then_fail p) = true) := by
  have h := (C2_segment_ordering_and_guarded_eligibility fn_run_then_fail).2
    ⟨0, 26, List.replicate 10 (NativeStep.STEP_TYPE_ADJUST 0 0 1)⟩ (by decide)
  exact ⟨h.1, h.2.1, h.2.2⟩

/-! ## Claim C3 -/

/-- C3, counterexample.  The claim says every retained segment's step count
equals the number of instructions in `[start_ip, end_ip)`.  The retained
segment of `fn_run_then_fail` has 10 steps but its range `[0, 26)` holds 12
instructions (the failed operator instruction and the trailing ineligible
opcode are inside the range but produced no steps). -/
theorem C3_counterexample :
    ((prepare_native_jit fn_run_then_fail).native_operator_segments.map
      (fun s => (s.start_ip, s.end_ip, s.steps.length))) = [((0 : Int), (26 : Int), 10)] ∧
    (instr_positions_in fn_run_then_fail 0 26).length = 12 := by
  exact ⟨by decide, by decide⟩

/-- C3 (corrected): every retained segment has at least the fixed minimum of
`k_min_native_steps = 10` steps — segments below the threshold never appear
in the final list — and its step count equals the number of instructions in
`[start_ip, end_ip)` unless the segment was terminated by a decode failure,
in which case its `end_ip` is the end of the stream and the range holds more
instructions than steps. -/
theorem C3_threshold_and_guarded_counts (f : GDScriptFunction)
    (s : NativeOperatorSegment)
    (hs : s ∈ (prepare_native_jit f).native_operator_segments) :
    k_min_native_steps ≤ s.steps.length ∧
    (s.end_ip = _code_size f ∨
      s.steps.length = (instr_positions_in f s.start_ip s.end_ip).length) :=
  ⟨(mem_prepare_segments hs).1, (prepare_segment_facts hs).2.2.2.imp_right And.right⟩

/-- C3, witness: the retained segment `[0, 20)` of `fn_eligible_run` has 10
steps, meets the threshold, and matches its instruction count. -/
theorem C3_threshold_and_guarded_counts_witness :
    k_min_native_steps ≤ (List.replicate 10 (NativeStep.STEP_TYPE_ADJUST 0 0 1)).length ∧
    ((20 : Int) = _code_size fn_eligible_run ∨
      (List.replicate 10 (NativeStep.STEP_TYPE_ADJUST 0 0 1)).length =
        (instr_positions_in fn_eligible_run 0 20).length) := by
  have h := C3_threshold_and_guarded_counts fn_eligible_run
    ⟨0, 20, List.replicate 10 (NativeStep.STEP_TYPE_ADJUST 0 0 1)⟩ (by decide)
  exact ⟨h.1, h.2⟩

/-! ## Claim C4 -/

/-- C4, counterexample.  The claim says each of the three validated-call
forms looks the trailing table-index word up in the corresponding bound table
and fails when it is negative or past the table's length.  For the
validated-utility form there is no lookup at all: with every bound table
empty and the trailing word `-5` — negative, and out of range for any table —
the instruction still decodes successfully. -/
theorem C4_counterexample :
    (build_call_step fn_call_utility_unchecked 0).isSome = true ∧
    code_at fn_call_utility_unchecked 4 = -5 ∧
    fn_call_utility_unchecked.builtin_methods_count = 0 := by
  exact ⟨by decide, by decide, by decide⟩

/-- C4 (corrected): a negative leading argument-count word, or a negative
trailing argument-count word, fails the instruction for all three
validated-call forms; the built-in-type form additionally validates its
trailing table-index word against the built-in-method table, failing when the
index is negative or at/past the table's length; but the utility and
language-utility forms perform no table lookup — with nonnegative argument
counts they always succeed, taking the trailing word as a raw function
pointer without validation. -/
theorem C4_call_validation_per_form (f : GDScriptFunction) (ip : Int) :
    (code_at f (ip + 1) < 0 → build_call_step f ip = none) ∧
    (0 ≤ code_at f (ip + 1) → code_at f (ip + 2 + code_at f (ip + 1)) < 0 →
      build_call_step f ip = none) ∧
    (code_at f ip = OPCODE_CALL_BUILTIN_TYPE_VALIDATED →
      0 ≤ code_at f (ip + 1) → 0 ≤ code_at f (ip + 2 + code_at f (ip + 1)) →
      (code_at f (ip + code_at f (ip + 2 + code_at f (ip + 1)) + 5) < 0 ∨
        f.builtin_methods_count ≤
          code_at f (ip + code_at f (ip + 2 + code_at f (ip + 1)) + 5)) →
      build_call_step f ip = none) ∧
    (code_at f ip = OPCODE_CALL_UTILITY_VALIDATED →
      0 ≤ code_at f (ip + 1) → 0 ≤ code_at f (ip + 2 + code_at f (ip + 1)) →
      (build_call_step f ip).isSome = true) ∧
    (code_at f ip = OPCODE_CALL_GDSCRIPT_UTILITY →
      0 ≤ code_at f (ip + 1) → 0 ≤ code_at f (ip + 2 + code_at f (ip + 1)) →
      (build_call_step f ip).isSome = true) := by
  refine ⟨?_, ?_, ?_, ?_, ?_⟩
  · intro h1
    unfold build_call_step
    rw [if_pos h1]
  · intro h1 h2
    unfold build_call_step
    rw [if_neg (by omega), if_pos h2]
  · intro hop h1 h2 hfunc
    simp only [build_call_step]
    rw [if_neg (by omega), if_neg (by omega), if_pos hop, if_pos hfunc]
  · intro hop h1 h2
    simp only [build_call_step]
    rw [if_neg (by omega), if_neg (by omega),
      if_neg (by rw [hop]; decide), if_pos hop]
    rfl
  · intro hop h1 h2
    simp only [build_call_step]
    rw [if_neg (by omega), if_neg (by omega),
      if_neg (by rw [hop]; decide), if_neg (by rw [hop]; decide), if_pos hop]
    rfl

/-- C4, witness: the negative leading argument count of
`fn_call_negative_argc` fails, and the zero-argument language-utility call of
`fn_call_gds_utility` succeeds with no table validation. -/
theorem C4_call_validation_per_form_witness :
    build_call_step fn_call_negative_argc 0 = none ∧
    (build_call_step fn_call_gds_utility 0).isSome = true := by
  have h1 := (C4_call_validation_per_form fn_call_negative_argc 0).1 (by decide)
  have h2 := (C4_call_validation_per_form fn_call_gds_utility 0).2.2.2.2
    (by decide) (by decide) (by decide)
  exact ⟨h1, h2⟩

/-! ## Claim C5 -/

/-- C5 (confirmed): resuming a state whose owning script — or, when an
instance is bound, whose instance — is no longer registered live returns the
neutral result, mutates nothing (the whole state, its saved stack included,
is unchanged), does not re-enter the interpreter, and leaves the state
irrecoverable: every subsequent resume attempt again returns the neutral
result and again leaves the state unchanged.  In the model `resume` is a
total function, so no attempt can crash. -/
theorem C5_stale_resume_neutral_and_irrecoverable (self_id : Nat)
    (s : GDScriptFunctionState) (arg interp : GVariant)
    (h : s.scripts_in_list = false ∨
      (s.has_instance = true ∧ s.instances_in_list = false)) :
    (resume self_id s arg interp).ret = GVariant.nil ∧
    (resume self_id s arg interp).self = s ∧
    (resume self_id s arg interp).interp_called = false ∧
    ∀ (arg2 interp2 : GVariant),
      (resume self_id (resume self_id s arg interp).self arg2 interp2).ret =
        GVariant.nil ∧
      (resume self_id (resume self_id s arg interp).self arg2 interp2).self = s := by
  have h1 := resume_stale_eq self_id s arg interp h
  have h2 : (resume self_id s arg interp).self = s := by rw [h1]
  refine ⟨by rw [h1], h2, by rw [h1], fun arg2 interp2 => ?_⟩
  rw [h2, resume_stale_eq self_id s arg2 interp2 h]
  exact ⟨rfl, rfl⟩

/-- C5, witness: the stale state `st_stale_script` is rejected and stays
rejected. -/
theorem C5_stale_resume_neutral_and_irrecoverable_witness :
    st_stale_script.scripts_in_list = false ∧
    (resume 3 st_stale_script GVariant.nil (GVariant.plain 2)).ret = GVariant.nil ∧
    (resume 3 st_stale_script GVariant.nil (GVariant.plain 2)).self = st_stale_script ∧
    (resume 3 (resume 3 st_stale_script GVariant.nil (GVariant.plain 2)).self
      (GVariant.plain 9) GVariant.nil).ret = GVariant.nil := by
  have h := C5_stale_resume_neutral_and_irrecoverable 3 st_stale_script
    GVariant.nil (GVariant.plain 2) (Or.inl (by decide))
  exact ⟨by decide, h.1, h.2.1, (h.2.2.2 (GVariant.plain 9) GVariant.nil).1⟩

/-! ## Claim C6 -/

/-- C6 (confirmed): when the precondition check passes, the state is removed
from both liveness registries (modelled as one atomic step, as the C++ does
both removals inside one critical section) and the function pointer is
cleared after the interpreter call, so any second resume attempt on the same
state hits the null-function precondition guard: it returns the neutral
result and does not re-enter the interpreter. -/
theorem C6_success_consumes_state_and_rejects_reresume (self_id : Nat)
    (s : GDScriptFunctionState) (arg interp : GVariant) (fid : Nat)
    (hf : s.function = some fid) (hs : s.scripts_in_list = true)
    (hi : s.has_instance = true → s.instances_in_list = true) :
    (resume self_id s arg interp).interp_called = true ∧
    (resume self_id s arg interp).self.scripts_in_list = false ∧
    (resume self_id s arg interp).self.instances_in_list = false ∧
    (resume self_id s arg interp).self.function = none ∧
    ∀ (arg2 interp2 : GVariant),
      (resume self_id (resume self_id s arg interp).self arg2 interp2).ret =
        GVariant.nil ∧
      (resume self_id (resume self_id s arg interp).self arg2 interp2).interp_called =
        false := by
  have hfn := resume_success_function self_id s arg interp hf hs hi
  refine ⟨resume_success_interp_called self_id s arg interp hf hs hi,
    resume_success_scripts self_id s arg interp hf hs hi,
    resume_success_instances self_id s arg interp hf hs hi, hfn,
    fun arg2 interp2 => ?_⟩
  rw [resume_null_function self_id _ arg2 interp2 hfn]
  exact ⟨rfl, rfl⟩

/-- C6, witness: resuming the live state `st_live` re-enters the interpreter,
clears the function pointer, and a second resume is rejected without
re-entering. -/
theorem C6_success_consumes_state_and_rejects_reresume_witness :
    (resume 3 st_live GVariant.nil (GVariant.plain 2)).interp_called = true ∧
    (resume 3 st_live GVariant.nil (GVariant.plain 2)).self.function = none ∧
    (resume 3 (resume 3 st_live GVariant.nil (GVariant.plain 2)).self
      GVariant.nil GVariant.nil).interp_called = false := by
  have h := C6_success_consumes_state_and_rejects_reresume 3 st_live
    GVariant.nil (GVariant.plain 2) 7 (by decide) (by decide) (fun _ => by decide)
  exact ⟨h.1, h.2.2.2.1, (h.2.2.2.2 GVariant.nil GVariant.nil).2⟩

/-! ## Claim C7 -/

/-- C7 (confirmed): if the interpreter call returns a fresh suspension tied
to the same underlying function, the call is not treated as completed — the
saved stack is not finalized and survives untouched — and the chain root
written into the new suspension's `first_state` is this state's recorded root
when it has one, and this state itself otherwise. -/
theorem C7_resuspension_keeps_stack_and_adopts_root (self_id : Nat)
    (s : GDScriptFunctionState) (arg : GVariant) (fid : Nat)
    (hf : s.function = some fid) (hs : s.scripts_in_list = true)
    (hi : s.has_instance = true → s.instances_in_list = true) :
    (resume self_id s arg (GVariant.func_state_ref (some fid))).stack_finalized = false ∧
    (resume self_id s arg (GVariant.func_state_ref (some fid))).self.stack = s.stack ∧
    (resume self_id s arg (GVariant.func_state_ref (some fid))).self.stack_size =
      s.stack_size ∧
    (resume self_id s arg (GVariant.func_state_ref (some fid))).new_first_state =
      some (s.first_state.getD self_id) ∧
    (resume self_id s arg (GVariant.func_state_ref (some fid))).ret =
      GVariant.func_state_ref (some fid) := by
  unfold resume
  rw [if_neg (by simp [hf]), if_neg (by simp [hs]),
    if_neg (by rintro ⟨ha, hb⟩; rw [hi ha] at hb; cases hb), hf]
  simp only [beq_self_eq_true, Bool.not_true]
  refine ⟨by trivial, by trivial, by trivial, ?_, by trivial⟩
  cases hfs : s.first_state <;> simp

/-- C7, witness: `st_live` (whose chain root is unset) re-suspends on a
same-function state and the new suspension's root becomes `st_live`
itself. -/
theorem C7_resuspension_keeps_stack_and_adopts_root_witness :
    (resume 3 st_live GVariant.nil (GVariant.func_state_ref (some 7))).stack_finalized =
      false ∧
    (resume 3 st_live GVariant.nil (GVariant.func_state_ref (some 7))).self.stack =
      st_live.stack ∧
    (resume 3 st_live GVariant.nil (GVariant.func_state_ref (some 7))).new_first_state =
      some 3 := by
  have h := C7_resuspension_keeps_stack_and_adopts_root 3 st_live GVariant.nil 7
    (by decide) (by decide) (fun _ => by decide)
  exact ⟨h.1, h.2.1, h.2.2.2.1⟩

/-! ## Claim C8 -/

/-- C8, counterexample.  The claim says the length function returns at least
1 for every instruction pointer value.  At a validated-utility call opcode
whose trailing argument-count word is `-10`, the length is `4 + (-10) = -6`:
a caller advancing by it would move backwards. -/
theorem C8_counterexample :
    opcode_size_at fn_call_negative_argc 0 = -6 ∧
    ¬ 1 ≤ opcode_size_at fn_call_negative_argc 0 := by
  exact ⟨by decide, by decide⟩

/-- C8 (corrected): the length function never fails (it is total) and clamps
out-of-range positions to exactly 1; at any position whose opcode is not one
of the three validated-call forms the length is at least 1; at a
validated-call opcode the length is at least 1 whenever the trailing
argument-count word is nonnegative, but in general it is `4 +` that word
(when the position is in range), which can be nonpositive for corrupted
negative counts. -/
theorem C8_length_clamp_and_call_exception (f : GDScriptFunction) (p_ip : Int) :
    ((p_ip < 0 ∨ _code_size f ≤ p_ip) → opcode_size_at f p_ip = 1) ∧
    (is_call_opcode (code_at f p_ip) = false → 1 ≤ opcode_size_at f p_ip) ∧
    (0 ≤ code_at f (p_ip + 1) → 1 ≤ opcode_size_at f p_ip) ∧
    (is_call_opcode (code_at f p_ip) = true →
      opcode_size_at f p_ip = 1 ∨
      opcode_size_at f p_ip = 4 + code_at f (p_ip + 1)) := by
  refine ⟨opcode_size_at_out_of_range f p_ip, opcode_size_at_pos_of_not_call f p_ip,
    opcode_size_at_pos_of_nonneg_argc f p_ip, ?_⟩
  intro hc
  by_cases hr : p_ip < 0 ∨ _code_size f ≤ p_ip
  · exact Or.inl (opcode_size_at_out_of_range f p_ip hr)
  · right
    simp only [is_call_opcode, decide_eq_true_eq] at hc
    unfold opcode_size_at
    rw [if_neg hr]
    rcases hc with e | e | e <;> rw [e] <;> simp

/-- C8, witness: a negative position clamps to 1, and a coercion opcode's
length is positive. -/
theorem C8_length_clamp_and_call_exception_witness :
    opcode_size_at fn_eligible_run (-1) = 1 ∧
    1 ≤ opcode_size_at fn_eligible_run 0 := by
  have h1 := (C8_length_clamp_and_call_exception fn_eligible_run (-1)).1
    (Or.inl (by decide))
  have h2 := (C8_length_clamp_and_call_exception fn_eligible_run 0).2.1 (by decide)
  exact ⟨h1, h2⟩

/-! ## Claim C9 -/

/-- C9 (confirmed): after a resume attempt is rejected because the owning
script (or bound instance) is no longer registered live, the function pointer
is not cleared, so the cheap check `is_valid(false)` still reports the state
valid although every future resume returns the neutral result; only the
extended check `is_valid(true)` reports it invalid. -/
theorem C9_stale_reject_keeps_cheap_validity (self_id : Nat)
    (s : GDScriptFunctionState) (arg interp : GVariant) (fid : Nat)
    (hf : s.function = some fid)
    (h : s.scripts_in_list = false ∨
      (s.has_instance = true ∧ s.instances_in_list = false)) :
    (resume self_id s arg interp).self.function = some fid ∧
    is_valid (resume self_id s arg interp).self false = true ∧
    is_valid (resume self_id s arg interp).self true = false ∧
    (resume self_id s arg interp).ret = GVariant.nil := by
  have h1 := resume_stale_eq self_id s arg interp h
  have h2 : (resume self_id s arg interp).self = s := by rw [h1]
  rw [h2]
  refine ⟨hf, ?_, ?_, by rw [h1]⟩
  · unfold is_valid
    rw [if_neg (by simp [hf])]
    rfl
  · unfold is_valid
    rw [if_neg (by simp [hf])]
    show (if s.scripts_in_list = false then false
      else if s.has_instance = true ∧ s.instances_in_list = false then false
      else true) = false
    rcases h with h1s | hin
    · rw [if_pos h1s]
    · by_cases hsc : s.scripts_in_list = false
      · rw [if_pos hsc]
      · rw [if_neg hsc, if_pos hin]

/-- C9, witness: `st_stale_script` still passes the cheap check and fails the
extended one after a rejected resume. -/
theorem C9_stale_reject_keeps_cheap_validity_witness :
    (resume 3 st_stale_script GVariant.nil GVariant.nil).self.function = some 7 ∧
    is_valid (resume 3 st_stale_script GVariant.nil GVariant.nil).self false = true ∧
    is_valid (resume 3 st_stale_script GVariant.nil GVariant.nil).self true = false := by
  have h := C9_stale_reject_keeps_cheap_validity 3 st_stale_script
    GVariant.nil GVariant.nil 7 (by decide) (Or.inl (by decide))
  exact ⟨h.1, h.2.1, h.2.2.1⟩

/-! ## Claim C10 -/

/-- C10 (confirmed): the scan terminates on every finite stream — the
fuel-indexed encoding of the loop is insensitive to any fuel at least
`_code_size + 1`, i.e. the loop finishes within that many iterations — and
`prepare_native_jit` always returns with `native_segments_ready = true`; with
a null code pointer it publishes an empty segment list and an empty segment
index. -/
theorem C10_termination_ready_and_null_case (f : GDScriptFunction) (n : Nat)
    (hn : (_code_size f).toNat + 1 ≤ n) :
    outer_scan f n 0 = outer_scan f ((_code_size f).toNat + 1) 0 ∧
    (prepare_native_jit f).native_segments_ready = true ∧
    (f.has_code_ptr = false →
      (prepare_native_jit f).native_operator_segments = [] ∧
      (prepare_native_jit f).native_segment_index_by_ip = []) := by
  have hcs := code_size_nonneg f
  refine ⟨outer_scan_stable f n ((_code_size f).toNat + 1) 0 le_rfl
    (by omega) (by omega), ?_, ?_⟩
  · unfold prepare_native_jit
    split_ifs <;> rfl
  · intro hptr
    unfold prepare_native_jit
    rw [if_pos hptr]
    exact ⟨rfl, rfl⟩

/-- C10, witness: the null-code function publishes empty, ready results, and
its scan is fuel-stable. -/
theorem C10_termination_ready_and_null_case_witness :
    outer_scan fn_null_code 1 0 =
      outer_scan fn_null_code ((_code_size fn_null_code).toNat + 1) 0 ∧
    (prepare_native_jit fn_null_code).native_segments_ready = true ∧
    (prepare_native_jit fn_null_code).native_operator_segments = [] ∧
    (prepare_native_jit fn_null_code).native_segment_index_by_ip = [] := by
  have h := C10_termination_ready_and_null_case fn_null_code 1 (by decide)
  exact ⟨h.1, h.2.1, (h.2.2 (by decide)).1, (h.2.2 (by decide)).2⟩

end GDScript2
